import Mathlib

/-!
Shallow embedding of the socket transport layer of rmlib
(src/include/rmlib/socket.h): the unified status model, the socket state
machine and the operations connect/listen/accept/send/recv/disconnect.

OS and TLS-engine calls are modelled by an oracle environment `env_t`
carrying the return values the kernel / OpenSSL would produce for the one
call site that consults them; each operation additionally returns the list
of external calls it performed, so that "performs no OS-level operation"
claims are statements about that trace.
-/

namespace rmlib

/- OS error constants, with the Linux values used by socket.h
   (WSAEWOULDBLOCK = EWOULDBLOCK = EAGAIN = 11, WSAEINVAL = EINVAL = 22,
   WSAENOTCONN = ENOTCONN = 107, WSAEALREADY = EALREADY = 114,
   WSAECONNREFUSED = ECONNREFUSED = 111). -/
def SOCKET_ERROR : Int := -1
def WSAEWOULDBLOCK : Int := 11
def WSAEINVAL : Int := 22
def WSAENOTCONN : Int := 107
def WSAEALREADY : Int := 114
def WSAECONNREFUSED : Int := 111

/- OpenSSL SSL_get_error outcome codes. -/
def SSL_ERROR_NONE : Int := 0
def SSL_ERROR_SSL : Int := 1
def SSL_ERROR_WANT_READ : Int := 2
def SSL_ERROR_WANT_WRITE : Int := 3
def SSL_ERROR_SYSCALL : Int := 5
def SSL_ERROR_ZERO_RETURN : Int := 6

/-- `enum class status_code_t { none, closing, want_read, want_write, io, fatal }` -/
inductive status_code_t
  | none
  | closing
  | want_read
  | want_write
  | io
  | fatal
  deriving DecidableEq

/-- `socket::status_t`: fields `error_`, `ctx_`, `code_`. -/
structure status_t where
  error : Int := 0
  ctx : Int := 0
  code : status_code_t := status_code_t.none
  deriving DecidableEq

/-- A default-constructed `status_t` (no error). -/
def ok_status : status_t := {}

/-- `status_t::ok()`: `code_ == status_code_t::none`. -/
def status_t.ok (s : status_t) : Bool := s.code = status_code_t.none

/-- `status_t::nok()`: `!ok()`. -/
def status_t.nok (s : status_t) : Bool := !s.ok

/-- `status_t::would_block()`: `code_ == want_read || code_ == want_write`. -/
def status_t.would_block (s : status_t) : Bool :=
  s.code = status_code_t.want_read || s.code = status_code_t.want_write

/-- `status_t::want_read()`. -/
def status_t.want_read (s : status_t) : Bool := s.code = status_code_t.want_read

/-- `status_t::want_write()`. -/
def status_t.want_write (s : status_t) : Bool := s.code = status_code_t.want_write

/-- The constructor `status_t(int error, status_code_t hint = io)`, sequenced
exactly as in the source:
  `error_ = error; code_ = (error == 0) ? none : hint;`
  `if (error_ == SOCKET_ERROR) { code_ = io; error_ = WSAGetLastError(); }`
  `if (error_ == WSAEWOULDBLOCK && hint != io) code_ = hint;`
  `if (error_ == 0 && hint == closing) code_ = hint;`
`lastError` stands for the value `WSAGetLastError()` would return. -/
def status_from_os (error : Int) (hint : status_code_t) (lastError : Int) : status_t :=
  let e1 := if error = SOCKET_ERROR then lastError else error
  let c1 := if error = SOCKET_ERROR then status_code_t.io
            else if error = 0 then status_code_t.none else hint
  let c2 := if e1 = WSAEWOULDBLOCK ∧ hint ≠ status_code_t.io then hint else c1
  let c3 := if e1 = 0 ∧ hint = status_code_t.closing then hint else c2
  { error := e1, ctx := 0, code := c3 }

/-- The constructor `status_t(const SSL* ssl, int ret)`.
`sslError` is `SSL_get_error(ssl, ret)`, `queueNonEmpty` is
`ERR_peek_last_error() != 0`, `lastError` is `WSAGetLastError()`.
In the source the `SSL_ERROR_SYSCALL` branch and the `default` branch
evaluate the expression statements `status_t(fatal);` and
`status_t{ WSAGetLastError() };`, which construct prvalue temporaries and
immediately discard them without assigning to `*this`; the object under
construction therefore keeps `error_ = SSL_get_error(...)` and the
default member initializer `code_ = none` in those branches. -/
def status_from_ssl (sslError : Int) (queueNonEmpty : Bool) (lastError : Int) : status_t :=
  if sslError = SSL_ERROR_NONE then { error := 0, ctx := 0, code := status_code_t.none }
  else if sslError = SSL_ERROR_ZERO_RETURN then
    { error := sslError, ctx := 0, code := status_code_t.closing }
  else if sslError = SSL_ERROR_WANT_READ then
    { error := sslError, ctx := 0, code := status_code_t.want_read }
  else if sslError = SSL_ERROR_WANT_WRITE then
    { error := sslError, ctx := 0, code := status_code_t.want_write }
  else if sslError = SSL_ERROR_SYSCALL then
    if queueNonEmpty then
      { error := sslError, ctx := 0, code := status_code_t.none }
    else
      { error := sslError, ctx := 0, code := status_code_t.none }
  else
    { error := sslError, ctx := 0, code := status_code_t.none }

/-- The constructor `explicit status_t(status_code_t)` used for SSL_CTX
errors: `ctx_ = ERR_peek_last_error(); if (ctx_ != 0) { error_ =
ERR_GET_REASON(ctx_); code_ = fatal; } ERR_clear_error();`.
`peekLast` is the queue head, `reasonOf` models `ERR_GET_REASON`. -/
def status_from_ctx (peekLast : Int) (reasonOf : Int → Int) : status_t :=
  if peekLast ≠ 0 then
    { error := reasonOf peekLast, ctx := peekLast, code := status_code_t.fatal }
  else
    { error := 0, ctx := peekLast, code := status_code_t.none }

/-- `status_t::reason()`: fatal errors render through the TLS engine string
facility (`ERR_error_string_n` on `ctx_`), other non-none codes through the
OS facility (`strerror_s` on `error_`), and `none` yields the fixed
message. `osStr` and `tlsStr` model the two string facilities. -/
def status_t.reason (osStr : Int → String) (tlsStr : Int → String) (s : status_t) : String :=
  if s.code = status_code_t.fatal then tlsStr s.ctx
  else if s.code ≠ status_code_t.none then osStr s.error
  else "No errors detected"

/-- `enum class socket_mode_t { blocking, nonblocking }` -/
inductive socket_mode_t
  | blocking
  | nonblocking
  deriving DecidableEq

/-- `enum class socket_state_t { idle, created, connecting, connected, listening, accepting }` -/
inductive socket_state_t
  | idle
  | created
  | connecting
  | connected
  | listening
  | accepting
  deriving DecidableEq

/-- `enum class socket_close_t { send, recv, both }` (SD_SEND / SD_RECEIVE / SD_BOTH). -/
inductive socket_close_t
  | send
  | recv
  | both
  deriving DecidableEq

/-- External calls a socket operation can perform: OS socket calls and
TLS-engine calls.  Operations return the list of calls they made, in
program order. -/
inductive os_op
  | os_socket
  | os_bind
  | os_listen
  | os_accept
  | os_connect
  | os_shutdown
  | os_closesocket
  | os_send
  | os_recv
  | os_ioctl
  | ssl_new
  | ssl_free
  | ssl_shutdown
  | ssl_accept
  | ssl_connect
  | ssl_write
  | ssl_read
  deriving DecidableEq

/-- `KBytes(n)` from socket.h. -/
def KBytes (n : Nat) : Nat := n * 1024

/-- `SOCKET_DEFAULT_RECV_SIZE = KBytes(16)`. -/
def SOCKET_DEFAULT_RECV_SIZE : Nat := KBytes 16

/-- `SOCKET_DEFAULT_LISTEN_BACKLOG = 512`. -/
def SOCKET_DEFAULT_LISTEN_BACKLOG : Nat := 512

/-- The state of a `socket_t` object.  `handle = none` stands for
`handle_ == INVALID_SOCKET`; `ssl` / `ctx` record whether `ssl_` / `ctx_`
are non-null; `ref_count = none` stands for `ref_count_ == nullptr`.
Defaults are the member initializers of the class (the default constructor
allocates a reference count of 1). -/
structure socket_t where
  handle : Option Int := Option.none
  ssl : Bool := false
  ctx : Bool := false
  uid : Nat := 0
  mode : socket_mode_t := socket_mode_t.blocking
  state : socket_state_t := socket_state_t.idle
  ref_count : Option Nat := Option.some 1
  deriving DecidableEq

/-- Oracle environment: the values the OS / OpenSSL would return at each
call site of an operation.  `socketRet`/`acceptRet` are `none` when the
call yields INVALID_SOCKET, otherwise the new descriptor. -/
structure env_t where
  lastError : Int := 0
  socketRet : Option Int := Option.some 3
  bindRet : Int := 0
  listenRet : Int := 0
  ioctlRet : Int := 0
  shutdownRet : Int := 0
  closesocketRet : Int := 0
  acceptRet : Option Int := Option.some 4
  sendRet : Int := 0
  recvErr : Bool := false
  recvAvail : List Int := []
  sslShutdownRet : Int := 1
  sslAcceptRet : Int := 1
  sslWriteRet : Int := 1
  sslWriteBytes : Nat := 0
  sslReadRet : Int := 1
  sslErr : Int := 0
  errQueueNonEmpty : Bool := false
  freshUid : Nat := 1

/-- `socket_t::close()`: when this is the last owner (`*ref_count_ == 1`)
and the handle is valid, `::closesocket` runs and the fields are reset to
the idle defaults; any TLS session is freed; the count cell is deleted
(`ref_count_ = nullptr`).  With more owners the count is only decremented;
with no count cell the call is a no-op. -/
def socket_t.close (s : socket_t) (env : env_t) : socket_t × status_t × List os_op :=
  match s.ref_count with
  | Option.none => (s, ok_status, [])
  | Option.some n =>
    if n = 1 then
      let r1 :=
        match s.handle with
        | Option.some _ =>
          ({ s with handle := Option.none, uid := 0,
                    mode := socket_mode_t.blocking, state := socket_state_t.idle },
           status_from_os env.closesocketRet status_code_t.io env.lastError,
           [os_op.os_closesocket])
        | Option.none => (s, ok_status, ([] : List os_op))
      let r2 :=
        if r1.1.ssl then ({ r1.1 with ssl := false }, r1.2.2 ++ [os_op.ssl_free])
        else (r1.1, r1.2.2)
      ({ r2.1 with ref_count := Option.none }, r1.2.1, r2.2)
    else ({ s with ref_count := Option.some (n - 1) }, ok_status, [])

/-- `socket_t::disconnect(socket_close_t how)`: from `connected`, run
`SSL_shutdown` first when a TLS session exists (building an SSL status only
when the return value is non-zero), then `::shutdown(handle_, how)`; in
every case `close()` runs and its status is discarded; the returned status
is `ssl_status` when `tcp_status.ok()`, otherwise `tcp_status`. -/
def socket_t.disconnect (s : socket_t) (how : socket_close_t) (env : env_t) :
    socket_t × status_t × List os_op :=
  if s.state = socket_state_t.connected then
    let sslr :=
      if s.ssl then
        if env.sslShutdownRet ≠ 0 then
          (status_from_ssl env.sslErr env.errQueueNonEmpty env.lastError,
           [os_op.ssl_shutdown])
        else (ok_status, [os_op.ssl_shutdown])
      else (ok_status, ([] : List os_op))
    let tcp_status := status_from_os env.shutdownRet status_code_t.io env.lastError
    let rc := socket_t.close s env
    (rc.1, if tcp_status.ok then sslr.1 else tcp_status,
     sslr.2 ++ [os_op.os_shutdown] ++ rc.2.2)
  else
    let rc := socket_t.close s env
    (rc.1, ok_status, rc.2.2)

/-- `socket_t::create(int family)`: `handle_ = ::socket(...)`; on
INVALID_SOCKET return `status_t{ last_error() }`; otherwise create a TLS
session when a context is attached (`if (ctx_) ssl_ = SSL_new(ctx_);`),
set `state_ = created` and `mode_ = blocking`. -/
def socket_t.create (s : socket_t) (env : env_t) : socket_t × status_t × List os_op :=
  match env.socketRet with
  | Option.none =>
      ({ s with handle := Option.none },
       status_from_os env.lastError status_code_t.io env.lastError,
       [os_op.os_socket])
  | Option.some h =>
      ({ s with handle := Option.some h,
                ssl := s.ctx || s.ssl,
                state := socket_state_t.created,
                mode := socket_mode_t.blocking },
       ok_status,
       [os_op.os_socket] ++ (if s.ctx then [os_op.ssl_new] else []))

/-- `socket_t::set_blocking(mode)`: one `ioctlsocket(FIONBIO)` call; the
cached mode is updated only when the call succeeded. -/
def socket_t.set_blocking (s : socket_t) (m : socket_mode_t) (env : env_t) :
    socket_t × status_t × List os_op :=
  let st := status_from_os env.ioctlRet status_code_t.io env.lastError
  ({ s with mode := if st.ok then m else s.mode }, st, [os_op.os_ioctl])

/-- `socket_t::listen(server, mode, backlog)`.  Sequenced as in the
source: a non-idle socket is rejected with `status_t{ WSAEALREADY }`;
otherwise `if (status = create(server.family()); status.ok()) { return
status; }` returns right after a successful create (the inverted check of
the source is reproduced verbatim), and only when create failed does the
code fall through to `::bind`, `::listen`, `set_blocking`, uid generation
and `state_ = listening`, closing on a final non-ok status. -/
def socket_t.listen (s : socket_t) (m : socket_mode_t) (backlog : Nat) (env : env_t) :
    socket_t × status_t × List os_op :=
  if s.state ≠ socket_state_t.idle then
    (s, status_from_os WSAEALREADY status_code_t.io env.lastError, [])
  else
    let r1 := socket_t.create s env
    if r1.2.1.ok then r1
    else
      let s1 := r1.1
      let t1 := r1.2.2
      let stb := status_from_os env.bindRet status_code_t.io env.lastError
      if stb.ok then
        let stl := status_from_os env.listenRet status_code_t.io env.lastError
        if stl.ok then
          let r2 := socket_t.set_blocking s1 m env
          if r2.2.1.ok then
            ({ r2.1 with uid := env.freshUid, state := socket_state_t.listening },
             r2.2.1, t1 ++ [os_op.os_bind, os_op.os_listen] ++ r2.2.2)
          else
            let rc := socket_t.close r2.1 env
            (rc.1, r2.2.1, t1 ++ [os_op.os_bind, os_op.os_listen] ++ r2.2.2 ++ rc.2.2)
        else
          let rc := socket_t.close s1 env
          (rc.1, stl, t1 ++ [os_op.os_bind, os_op.os_listen] ++ rc.2.2)
      else
        let rc := socket_t.close s1 env
        (rc.1, stb, t1 ++ [os_op.os_bind] ++ rc.2.2)

/-- `socket_t::tcp_accept(client, mode)`: when the parent is already in
`accepting` it returns an ok status immediately, touching nothing.
Otherwise `::accept` produces a fresh child socket (local variable with a
fresh reference count); `set_blocking` failure closes the child and
returns; on success the child becomes `connected` with a fresh uid, gets a
TLS session when the parent has one, and is copy-assigned into `client`
(the local copy is destroyed on return, leaving `client` as sole owner).
The parent's state is never changed by this function. -/
def socket_t.tcp_accept (pa : socket_t) (client : socket_t) (m : socket_mode_t)
    (env : env_t) : socket_t × socket_t × status_t × List os_op :=
  if pa.state = socket_state_t.accepting then (pa, client, ok_status, [])
  else
    match env.acceptRet with
    | Option.none =>
        (pa, client, status_from_os env.lastError status_code_t.io env.lastError,
         [os_op.os_accept])
    | Option.some h =>
        let sock0 : socket_t := { handle := Option.some h }
        let r1 := socket_t.set_blocking sock0 m env
        if r1.2.1.nok then
          let rc := socket_t.close r1.1 env
          (pa, client, r1.2.1, [os_op.os_accept] ++ r1.2.2 ++ rc.2.2)
        else
          let sock2 := { r1.1 with mode := m, state := socket_state_t.connected,
                                   uid := env.freshUid }
          let r2 :=
            if pa.ssl then
              ({ sock2 with ctx := true, ssl := true }, [os_op.ssl_new])
            else (sock2, ([] : List os_op))
          (pa, r2.1, ok_status, [os_op.os_accept] ++ r1.2.2 ++ r2.2)

/-- `socket_t::accept(client, mode)`: `tcp_accept` first; when it
succeeded and the parent is in `accepting`, `SSL_accept(client.ssl_)` is
driven: a non-positive return builds an SSL status, an ok SSL status marks
the child `connected`, and a status that is neither ok nor would-block
calls `close()` — on the parent object (`this`), not on the child; a
positive return puts the parent back to `listening`. -/
def socket_t.accept (pa : socket_t) (client : socket_t) (m : socket_mode_t)
    (env : env_t) : socket_t × socket_t × status_t × List os_op :=
  let r1 := socket_t.tcp_accept pa client m env
  let p1 := r1.1
  let c1 := r1.2.1
  let st := r1.2.2.1
  let t1 := r1.2.2.2
  if st.ok = true ∧ p1.state = socket_state_t.accepting then
    if env.sslAcceptRet ≤ 0 then
      let st2 := status_from_ssl env.sslErr env.errQueueNonEmpty env.lastError
      let c2 := if st2.ok then { c1 with state := socket_state_t.connected } else c1
      if st2.ok = false ∧ st2.would_block = false then
        let rc := socket_t.close p1 env
        (rc.1, c2, st2, t1 ++ [os_op.ssl_accept] ++ rc.2.2)
      else (p1, c2, st2, t1 ++ [os_op.ssl_accept])
    else ({ p1 with state := socket_state_t.listening }, c1, st,
          t1 ++ [os_op.ssl_accept])
  else (p1, c1, st, t1)

/-- `socket_t::tcp_send`: rejected with WSAENOTCONN before any OS call
when not `connected`; otherwise one `::send`, a SOCKET_ERROR return
classifying through `status_t{ last_error(), want_write }`. -/
def socket_t.tcp_send (s : socket_t) (len : Nat) (env : env_t) :
    status_t × Nat × List os_op :=
  if s.state ≠ socket_state_t.connected then
    (status_from_os WSAENOTCONN status_code_t.io env.lastError, 0, [])
  else if env.sendRet = SOCKET_ERROR then
    (status_from_os env.lastError status_code_t.want_write env.lastError, 0,
     [os_op.os_send])
  else (ok_status, env.sendRet.toNat, [os_op.os_send])

/-- `socket_t::ssl_send`: rejected with WSAENOTCONN before any engine call
when not `connected`; otherwise one `SSL_write_ex`. -/
def socket_t.ssl_send (s : socket_t) (len : Nat) (env : env_t) :
    status_t × Nat × List os_op :=
  if s.state ≠ socket_state_t.connected then
    (status_from_os WSAENOTCONN status_code_t.io env.lastError, 0, [])
  else if env.sslWriteRet ≤ 0 then
    (status_from_ssl env.sslErr env.errQueueNonEmpty env.lastError, 0,
     [os_op.ssl_write])
  else (ok_status, env.sslWriteBytes, [os_op.ssl_write])

/-- `socket_t::send(buffer, len, index, bytes_sent)`: `bytes_sent = 0;
if (index >= len) return status;` — the empty-remainder case returns the
default ok status before any state check or OS/TLS call; otherwise
dispatch on `ssl_` and advance `index` by the bytes sent.
Returns (status, new index, bytes_sent, trace). -/
def socket_t.send (s : socket_t) (len index : Nat) (env : env_t) :
    status_t × Nat × Nat × List os_op :=
  if index ≥ len then (ok_status, index, 0, [])
  else
    let r := if s.ssl then socket_t.ssl_send s (len - index) env
             else socket_t.tcp_send s (len - index) env
    (r.1, index + r.2.1, r.2.1, r.2.2)

/-- `socket_t::tcp_recv`: rejected with WSAENOTCONN before any OS call
when not `connected`; otherwise one `::recv`: SOCKET_ERROR classifies via
`status_t{ last_error(), want_read }`, a zero return yields
`status_t{ 0, closing }`, else the received bytes.  `env.recvAvail` are
the bytes the OS would deliver; the call returns at most `len` of them.
Returns (status, received bytes, trace). -/
def socket_t.tcp_recv (s : socket_t) (len : Nat) (env : env_t) :
    status_t × List Int × List os_op :=
  if s.state ≠ socket_state_t.connected then
    (status_from_os WSAENOTCONN status_code_t.io env.lastError, [], [])
  else if env.recvErr then
    (status_from_os SOCKET_ERROR status_code_t.want_read env.lastError, [],
     [os_op.os_recv])
  else if env.recvAvail = [] then
    (status_from_os 0 status_code_t.closing env.lastError, [], [os_op.os_recv])
  else (ok_status, env.recvAvail.take len, [os_op.os_recv])

/-- `socket_t::ssl_recv`: rejected with WSAENOTCONN before any engine call
when not `connected`; otherwise one `SSL_read_ex`. -/
def socket_t.ssl_recv (s : socket_t) (len : Nat) (env : env_t) :
    status_t × List Int × List os_op :=
  if s.state ≠ socket_state_t.connected then
    (status_from_os WSAENOTCONN status_code_t.io env.lastError, [], [])
  else if env.sslReadRet ≤ 0 then
    (status_from_ssl env.sslErr env.errQueueNonEmpty env.lastError, [],
     [os_op.ssl_read])
  else (ok_status, env.recvAvail.take len, [os_op.ssl_read])

/-- `socket_t::recv(char*, len, bytes_received)`: dispatch on `ssl_`. -/
def socket_t.recv (s : socket_t) (len : Nat) (env : env_t) :
    status_t × List Int × List os_op :=
  if s.ssl then socket_t.ssl_recv s len env else socket_t.tcp_recv s len env

/-- The templated `socket_t::recv<S, T>(T& buffer, size_t& bytes_received)`:
receive into a stack array of `S` elements, then, when `bytes_received >
0`, copy `temp.begin() .. temp.begin() + bytes_received` through
`std::back_inserter(buffer)` — appending to the container.
Returns (status, new buffer, bytes_received, trace). -/
def socket_t.recv_into (S : Nat) (s : socket_t) (buffer : List Int) (env : env_t) :
    status_t × List Int × Nat × List os_op :=
  let r := socket_t.recv s S env
  let bytes_received := r.2.1.length
  (r.1, if bytes_received > 0 then buffer ++ r.2.1 else buffer, bytes_received, r.2.2)

/-! ## Helper lemmas -/

/-- The byte list produced by one `recv` call never exceeds the requested
length. -/
theorem recv_length_le (s : socket_t) (len : Nat) (env : env_t) :
    (socket_t.recv s len env).2.1.length ≤ len := by
  unfold socket_t.recv socket_t.ssl_recv socket_t.tcp_recv
  split_ifs <;> simp [List.length_take]

/-! ## Claim theorems -/

/-- Claim C5: the source's `status_t(const SSL*, int)` constructor never
produces the classification the claim describes: in the
`SSL_ERROR_SYSCALL` branch (queue non-empty or empty alike) and in the
`default` branch the constructed temporaries are discarded, so the status
keeps `code_ = none` — `ok()` is true, the status is not fatal, and the
empty-queue case is not rebuilt from the raw OS error either (`error_`
stays `SSL_ERROR_SYSCALL` instead of the last OS error). -/
theorem C5_ssl_syscall_status_is_ok :
    (status_from_ssl SSL_ERROR_SYSCALL true 0).ok = true ∧
    (status_from_ssl SSL_ERROR_SYSCALL true 0).code = status_code_t.none ∧
    (status_from_ssl SSL_ERROR_SYSCALL false 7).ok = true ∧
    (status_from_ssl SSL_ERROR_SYSCALL false 7).error = SSL_ERROR_SYSCALL ∧
    (status_from_ssl SSL_ERROR_SSL true 0).code = status_code_t.none := by
  decide

/-- Claim C6, counterexample: constructing a status from raw error 0 with
the `closing` hint yields the peer-closing classification, so `ok()` is
false — the claim's "regardless of the hint supplied" fails. -/
theorem C6_counterexample_closing_hint :
    (status_from_os 0 status_code_t.closing 0).ok = false ∧
    (status_from_os 0 status_code_t.closing 0).code = status_code_t.closing := by
  decide

/-- Claim C6 (amended): for raw error 0 and any hint other than `closing`,
`ok()` is true and `reason()` is the fixed no-error message. -/
theorem C6_zero_error_is_ok (hint : status_code_t) (lastError : Int)
    (osStr tlsStr : Int → String) (h : hint ≠ status_code_t.closing) :
    (status_from_os 0 hint lastError).ok = true ∧
    status_t.reason osStr tlsStr (status_from_os 0 hint lastError) =
      "No errors detected" := by
  simp [status_from_os, SOCKET_ERROR, WSAEWOULDBLOCK, status_t.ok,
        status_t.reason, h]

/-- Witness for C6_zero_error_is_ok at hint = io. -/
theorem C6_zero_error_is_ok_witness :
    status_code_t.io ≠ status_code_t.closing ∧
    ((status_from_os 0 status_code_t.io 5).ok = true ∧
     status_t.reason (fun _ => "os") (fun _ => "tls")
       (status_from_os 0 status_code_t.io 5) = "No errors detected") :=
  ⟨by decide, C6_zero_error_is_ok status_code_t.io 5 _ _ (by decide)⟩

/-- Claim C7: whenever a status built by the OS constructor carries a
would-block classification, `ok()` is false, `would_block()` is true, and
the classification equals the hint supplied at construction (read hint →
want_read, write hint → want_write). -/
theorem C7_would_block_matches_hint (error : Int) (hint : status_code_t)
    (lastError : Int)
    (h : (status_from_os error hint lastError).code = status_code_t.want_read ∨
         (status_from_os error hint lastError).code = status_code_t.want_write) :
    (status_from_os error hint lastError).ok = false ∧
    (status_from_os error hint lastError).would_block = true ∧
    (status_from_os error hint lastError).code = hint := by
  unfold status_from_os WSAEWOULDBLOCK SOCKET_ERROR at h ⊢
  simp only [status_t.ok, status_t.would_block]
  split_ifs at h ⊢ <;>
    (try rcases h with h | h) <;>
    (try by_cases he : error = (11 : Int)) <;>
    (try by_cases hl : lastError = (0 : Int)) <;>
    simp_all

/-- Witness for C7_would_block_matches_hint: a non-blocking read that
reported EWOULDBLOCK with the read hint. -/
theorem C7_would_block_matches_hint_witness :
    ((status_from_os 11 status_code_t.want_read 0).code = status_code_t.want_read ∨
     (status_from_os 11 status_code_t.want_read 0).code = status_code_t.want_write) ∧
    ((status_from_os 11 status_code_t.want_read 0).ok = false ∧
     (status_from_os 11 status_code_t.want_read 0).would_block = true ∧
     (status_from_os 11 status_code_t.want_read 0).code = status_code_t.want_read) :=
  ⟨by decide, C7_would_block_matches_hint 11 status_code_t.want_read 0 (by decide)⟩

/-- Claim C9: for every socket in any state, `send` with `index ≥ len`
returns the default ok status with `bytes_sent = 0`, leaves `index`
unchanged and performs no OS-level or TLS-engine call — the guard runs
before any state check. -/
theorem C9_send_empty_range (s : socket_t) (len index : Nat) (env : env_t)
    (h : index ≥ len) :
    socket_t.send s len index env = (ok_status, index, 0, []) := by
  simp [socket_t.send, h]

/-- Witness for C9_send_empty_range: an idle socket and an empty buffer. -/
theorem C9_send_empty_range_witness :
    (0 : Nat) ≥ 0 ∧ socket_t.send {} 0 0 {} = (ok_status, 0, 0, []) :=
  ⟨by decide, C9_send_empty_range {} 0 0 {} (by decide)⟩

/-- Claim C10: the templated `recv` only appends to the container: the new
buffer is the old buffer followed by the newly received bytes, at most `S`
of them per call (`S` defaults to SOCKET_DEFAULT_RECV_SIZE = 16 KiB), and
exactly `bytes_received` many — in particular nothing is appended when
`bytes_received = 0`. -/
theorem C10_recv_appends (S : Nat) (s : socket_t) (buffer : List Int) (env : env_t) :
    SOCKET_DEFAULT_RECV_SIZE = 16 * 1024 ∧
    ∃ app : List Int,
      (socket_t.recv_into S s buffer env).2.1 = buffer ++ app ∧
      app.length ≤ S ∧
      app.length = (socket_t.recv_into S s buffer env).2.2.1 := by
  refine ⟨rfl, (socket_t.recv s S env).2.1, ?_, recv_length_le s S env, rfl⟩
  by_cases h : (socket_t.recv s S env).2.1.length > 0
  · simp [socket_t.recv_into, h]
  · have he : (socket_t.recv s S env).2.1 = [] := by
      simpa using Nat.le_zero.mp (Nat.not_lt.mp h)
    simp [socket_t.recv_into, he]

/-- Claim C1: evaluation of `accept` at the failing input — a TLS listener
in the `accepting` state whose pending child handshake fails fatally
(`SSL_accept` returns -1, `SSL_get_error` = SSL_ERROR_ZERO_RETURN, a
status that is neither ok nor would-block).  The source's handshake-failure
branch runs `close()` on the parent (`this`), so the PARENT ends idle with
its handle released, while the child socket is left untouched (still
`connected`, handle still valid) — the opposite of the claimed asymmetry. -/
theorem C1_fatal_handshake_closes_parent_not_child :
    (let pa : socket_t := { handle := Option.some 5, ssl := true, ctx := true,
                            state := socket_state_t.accepting }
     let client : socket_t := { handle := Option.some 7, ssl := true, ctx := true,
                                uid := 9, state := socket_state_t.connected }
     let env : env_t := { sslAcceptRet := -1, sslErr := SSL_ERROR_ZERO_RETURN }
     let r := socket_t.accept pa client socket_mode_t.blocking env
     r.2.2.1.ok = false ∧ r.2.2.1.would_block = false ∧
     r.1.state = socket_state_t.idle ∧ r.1.handle = Option.none ∧
     r.2.1.state = socket_state_t.connected ∧ r.2.1.handle = Option.some 7) := by
  decide

/-- Claim C2, counterexample: a connected TLS socket whose `SSL_shutdown`
fails (want-read, the only non-ok outcome the status constructor can still
produce) and whose `::shutdown` also fails (ENOTCONN).  Both layers report
errors, yet `disconnect` returns the OS-shutdown status, not the
TLS-shutdown status. -/
theorem C2_counterexample_os_error_wins :
    (let s : socket_t := { handle := Option.some 3, ssl := true, ctx := true,
                           state := socket_state_t.connected }
     let env : env_t := { sslShutdownRet := -1, sslErr := SSL_ERROR_WANT_READ,
                          shutdownRet := -1, lastError := WSAENOTCONN }
     let ssl_st := status_from_ssl env.sslErr env.errQueueNonEmpty env.lastError
     let tcp_st := status_from_os env.shutdownRet status_code_t.io env.lastError
     let r := socket_t.disconnect s socket_close_t.send env
     ssl_st.ok = false ∧ tcp_st.ok = false ∧ r.2.1 = tcp_st ∧ r.2.1 ≠ ssl_st) := by
  decide

/-- Claim C2 (amended): for a connected, solely owned socket, `disconnect`
runs the TLS-level shutdown first (when a TLS session exists), then the
OS-level shutdown, and always releases the handle, returning the socket to
idle; the returned status is the TLS-shutdown status only when the OS
shutdown succeeded — when the OS shutdown failed, the OS-shutdown error is
returned, even if the TLS shutdown also failed. -/
theorem C2_disconnect_order_and_precedence (s : socket_t) (how : socket_close_t)
    (env : env_t) (h : Int) (hs : s.state = socket_state_t.connected)
    (hh : s.handle = Option.some h) (hr : s.ref_count = Option.some 1) :
    (socket_t.disconnect s how env).1.state = socket_state_t.idle ∧
    (socket_t.disconnect s how env).1.handle = Option.none ∧
    (s.ssl = true →
      (socket_t.disconnect s how env).2.2 =
        [os_op.ssl_shutdown, os_op.os_shutdown, os_op.os_closesocket,
         os_op.ssl_free]) ∧
    (s.ssl = false →
      (socket_t.disconnect s how env).2.2 =
        [os_op.os_shutdown, os_op.os_closesocket]) ∧
    (socket_t.disconnect s how env).2.1 =
      (if (status_from_os env.shutdownRet status_code_t.io env.lastError).ok then
        (if s.ssl = true ∧ env.sslShutdownRet ≠ 0 then
           status_from_ssl env.sslErr env.errQueueNonEmpty env.lastError
         else ok_status)
       else status_from_os env.shutdownRet status_code_t.io env.lastError) := by
  unfold socket_t.disconnect socket_t.close
  simp only [hs, hh, hr]
  cases hssl : s.ssl <;> split_ifs <;> simp_all

/-- Witness for C2_disconnect_order_and_precedence: a connected plain TCP
socket whose OS shutdown succeeds. -/
theorem C2_disconnect_order_and_precedence_witness :
    (let s : socket_t := { handle := Option.some 3,
                           state := socket_state_t.connected }
     s.state = socket_state_t.connected ∧ s.handle = Option.some 3 ∧
     s.ref_count = Option.some 1 ∧
     ((socket_t.disconnect s socket_close_t.send {}).1.state =
        socket_state_t.idle ∧
      (socket_t.disconnect s socket_close_t.send {}).1.handle = Option.none ∧
      (s.ssl = true →
        (socket_t.disconnect s socket_close_t.send {}).2.2 =
          [os_op.ssl_shutdown, os_op.os_shutdown, os_op.os_closesocket,
           os_op.ssl_free]) ∧
      (s.ssl = false →
        (socket_t.disconnect s socket_close_t.send {}).2.2 =
          [os_op.os_shutdown, os_op.os_closesocket]) ∧
      (socket_t.disconnect s socket_close_t.send {}).2.1 =
        (if (status_from_os (env_t.shutdownRet {}) status_code_t.io
              (env_t.lastError {})).ok then
          (if s.ssl = true ∧ env_t.sslShutdownRet {} ≠ 0 then
             status_from_ssl (env_t.sslErr {}) (env_t.errQueueNonEmpty {})
               (env_t.lastError {})
           else ok_status)
         else status_from_os (env_t.shutdownRet {}) status_code_t.io
           (env_t.lastError {})))) :=
  ⟨rfl, rfl, rfl,
   C2_disconnect_order_and_precedence _ socket_close_t.send {} 3 rfl rfl rfl⟩

/-- Claim C3: evaluation of `listen` at the failing input — an idle socket
for which `::socket()` succeeds.  The inverted check
`if (status = create(...); status.ok()) { return status; }` makes `listen`
return an ok status immediately after creating the handle: the socket ends
in `created`, never `listening`, and neither `::bind` nor `::listen` is
ever called. -/
theorem C3_successful_listen_ends_created (s : socket_t) (m : socket_mode_t)
    (backlog : Nat) (env : env_t) (h : Int)
    (hs : s.state = socket_state_t.idle) (hr : env.socketRet = Option.some h) :
    (socket_t.listen s m backlog env).2.1.ok = true ∧
    (socket_t.listen s m backlog env).1.state = socket_state_t.created ∧
    os_op.os_bind ∉ (socket_t.listen s m backlog env).2.2 ∧
    os_op.os_listen ∉ (socket_t.listen s m backlog env).2.2 := by
  unfold socket_t.listen socket_t.create
  simp only [hs, hr]
  split_ifs <;> simp_all [ok_status, status_t.ok]

/-- Witness for C3_successful_listen_ends_created: a fresh idle socket,
default oracle (socket creation succeeds). -/
theorem C3_successful_listen_ends_created_witness :
    (socket_t.state {} = socket_state_t.idle ∧
     env_t.socketRet {} = Option.some 3) ∧
    ((socket_t.listen {} socket_mode_t.blocking 512 {}).2.1.ok = true ∧
     (socket_t.listen {} socket_mode_t.blocking 512 {}).1.state =
       socket_state_t.created ∧
     os_op.os_bind ∉ (socket_t.listen {} socket_mode_t.blocking 512 {}).2.2 ∧
     os_op.os_listen ∉ (socket_t.listen {} socket_mode_t.blocking 512 {}).2.2) :=
  ⟨⟨rfl, rfl⟩,
   C3_successful_listen_ends_created {} socket_mode_t.blocking 512 {} 3 rfl rfl⟩

/-- Claim C4, counterexample: `send` on an idle socket with an empty buffer
(`len = 0`, `index = 0`) returns the default ok status — not a
"not connected" failure — because the `index >= len` early return runs
before any state check. -/
theorem C4_counterexample_empty_send_ok :
    (socket_t.send {} 0 0 {}).1.ok = true ∧
    (socket_t.send {} 0 0 {}).1.error ≠ WSAENOTCONN := by
  decide

/-- Claim C4 (amended): on a socket in `idle` or `created`, `send` with a
non-empty remaining range (`index < len`) and `recv` with any length fail
with the WSAENOTCONN io status and perform no OS-level or TLS-engine call
(`send` with `index ≥ len` instead returns ok with zero bytes, still with
no external call). -/
theorem C4_not_connected_fails (s : socket_t) (len index : Nat) (env : env_t)
    (hs : s.state = socket_state_t.idle ∨ s.state = socket_state_t.created)
    (hlt : index < len) :
    ((socket_t.send s len index env).1.ok = false ∧
     (socket_t.send s len index env).1.error = WSAENOTCONN ∧
     (socket_t.send s len index env).2.2.2 = [] ∧
     (socket_t.send s len index env).2.1 = index ∧
     (socket_t.send s len index env).2.2.1 = 0) ∧
    ((socket_t.recv s len env).1.ok = false ∧
     (socket_t.recv s len env).1.error = WSAENOTCONN ∧
     (socket_t.recv s len env).2.2 = [] ∧
     (socket_t.recv s len env).2.1 = []) := by
  have hns : s.state ≠ socket_state_t.connected := by
    rcases hs with h | h <;> simp [h]
  have hnl : ¬ index ≥ len := Nat.not_le.mpr hlt
  unfold socket_t.send socket_t.recv socket_t.ssl_send socket_t.tcp_send
    socket_t.ssl_recv socket_t.tcp_recv
  cases hssl : s.ssl <;>
    simp_all [status_from_os, WSAENOTCONN, SOCKET_ERROR, WSAEWOULDBLOCK,
              status_t.ok] <;>
    simp [Nat.not_le.mpr hlt]

/-- Witness for C4_not_connected_fails: an idle socket, a 4-byte buffer. -/
theorem C4_not_connected_fails_witness :
    ((socket_t.state {} = socket_state_t.idle ∨
      socket_t.state {} = socket_state_t.created) ∧ (0 : Nat) < 4) ∧
    (((socket_t.send {} 4 0 {}).1.ok = false ∧
      (socket_t.send {} 4 0 {}).1.error = WSAENOTCONN ∧
      (socket_t.send {} 4 0 {}).2.2.2 = [] ∧
      (socket_t.send {} 4 0 {}).2.1 = 0 ∧
      (socket_t.send {} 4 0 {}).2.2.1 = 0) ∧
     ((socket_t.recv {} 4 {}).1.ok = false ∧
      (socket_t.recv {} 4 {}).1.error = WSAENOTCONN ∧
      (socket_t.recv {} 4 {}).2.2 = [] ∧
      (socket_t.recv {} 4 {}).2.1 = [])) :=
  ⟨⟨Or.inl rfl, by decide⟩,
   C4_not_connected_fails {} 4 0 {} (Or.inl rfl) (by decide)⟩

/-- `disconnect` on an idle socket with no handle is a no-op on the OS
level: ok status, no shutdown, no closesocket, no TLS shutdown, and the
socket stays idle with no handle. -/
theorem disconnect_idle_noop (s : socket_t) (how : socket_close_t) (env : env_t)
    (hs : s.state = socket_state_t.idle) (hh : s.handle = Option.none) :
    (socket_t.disconnect s how env).2.1.ok = true ∧
    os_op.os_shutdown ∉ (socket_t.disconnect s how env).2.2 ∧
    os_op.os_closesocket ∉ (socket_t.disconnect s how env).2.2 ∧
    os_op.ssl_shutdown ∉ (socket_t.disconnect s how env).2.2 ∧
    (socket_t.disconnect s how env).1.state = socket_state_t.idle ∧
    (socket_t.disconnect s how env).1.handle = Option.none := by
  unfold socket_t.disconnect socket_t.close
  rcases hrc : s.ref_count with _ | n <;>
    cases hssl : s.ssl <;>
    simp_all [ok_status, status_t.ok] <;>
    split_ifs <;>
    simp_all

/-- Claim C8: `disconnect` on an already-idle socket is safe — it performs
no OS-level shutdown or close and returns an ok status — and a second
`disconnect` on the result is likewise a no-op returning ok. -/
theorem C8_disconnect_idle_idempotent (s : socket_t) (how how2 : socket_close_t)
    (env env2 : env_t) (hs : s.state = socket_state_t.idle)
    (hh : s.handle = Option.none) :
    ((socket_t.disconnect s how env).2.1.ok = true ∧
     os_op.os_shutdown ∉ (socket_t.disconnect s how env).2.2 ∧
     os_op.os_closesocket ∉ (socket_t.disconnect s how env).2.2 ∧
     os_op.ssl_shutdown ∉ (socket_t.disconnect s how env).2.2) ∧
    ((socket_t.disconnect (socket_t.disconnect s how env).1 how2 env2).2.1.ok
       = true ∧
     os_op.os_shutdown ∉
       (socket_t.disconnect (socket_t.disconnect s how env).1 how2 env2).2.2 ∧
     os_op.os_closesocket ∉
       (socket_t.disconnect (socket_t.disconnect s how env).1 how2 env2).2.2 ∧
     os_op.ssl_shutdown ∉
       (socket_t.disconnect (socket_t.disconnect s how env).1 how2 env2).2.2) := by
  obtain ⟨h1, h2, h3, h4, h5, h6⟩ := disconnect_idle_noop s how env hs hh
  obtain ⟨g1, g2, g3, g4, _, _⟩ := disconnect_idle_noop _ how2 env2 h5 h6
  exact ⟨⟨h1, h2, h3, h4⟩, ⟨g1, g2, g3, g4⟩⟩

/-- Witness for C8_disconnect_idle_idempotent: a default-constructed
(idle) socket. -/
theorem C8_disconnect_idle_idempotent_witness :
    (socket_t.state {} = socket_state_t.idle ∧
     socket_t.handle {} = Option.none) ∧
    (((socket_t.disconnect {} socket_close_t.send {}).2.1.ok = true ∧
      os_op.os_shutdown ∉ (socket_t.disconnect {} socket_close_t.send {}).2.2 ∧
      os_op.os_closesocket ∉ (socket_t.disconnect {} socket_close_t.send {}).2.2 ∧
      os_op.ssl_shutdown ∉ (socket_t.disconnect {} socket_close_t.send {}).2.2) ∧
     ((socket_t.disconnect (socket_t.disconnect {} socket_close_t.send {}).1
         socket_close_t.both {}).2.1.ok = true ∧
      os_op.os_shutdown ∉
        (socket_t.disconnect (socket_t.disconnect {} socket_close_t.send {}).1
          socket_close_t.both {}).2.2 ∧
      os_op.os_closesocket ∉
        (socket_t.disconnect (socket_t.disconnect {} socket_close_t.send {}).1
          socket_close_t.both {}).2.2 ∧
      os_op.ssl_shutdown ∉
        (socket_t.disconnect (socket_t.disconnect {} socket_close_t.send {}).1
          socket_close_t.both {}).2.2)) :=
  ⟨⟨rfl, rfl⟩,
   C8_disconnect_idle_idempotent {} socket_close_t.send socket_close_t.both
     {} {} rfl rfl⟩

end rmlib
